import Mathlib

/-!
Verification of the TRAJECTORY story/overview generation pipeline
(src/src/server/api/routers/stories.ts).

The file shallowly embeds the pure logic of the pipeline: the path-aware
selector, the search-only story builder, the relevance filters, the pure
response-mapping core of the Gemini summarizer, the deterministic overview
fallback, the placeholder stories, and the two orchestrators
(`generateForProfile` in both source revisions, `generateOverviewForProfile`).

Network calls (Tavily web search, Gemini) are modelled as oracle parameters:
the orchestrator receives the value the call would have produced after the
call-site error handling (the search client yields a list of results, empty
on any failure; the summarizer yields a story list, empty on any failure; the
overview call yields an optional string, none on any failure).  Database
writes are best-effort side effects that never alter the response, so they do
not appear in the model; the profile lookup appears as an `Option UserProfile`
argument.  JavaScript string falsiness (`!s` true exactly on the empty
string, `x || y`, `x ?? y`) is modelled explicitly.
-/

/-- Story shape returned by generateForProfile (stories.ts lines 11-18). -/
inductive SourceType
  | video
  | article
  | linkedin
  | other
deriving DecidableEq, Repr

structure StoryForProfile where
  id : String
  title : String
  sourceUrl : String
  sourceType : SourceType
  shortSummary : String
  whyItMatches : String
deriving DecidableEq, Repr

/-- Raw search result from the web search API (stories.ts lines 23-27).
`snippet` is optional in the source type. -/
structure RawSearchResult where
  title : String
  url : String
  snippet : Option String
deriving DecidableEq, Repr

/-- The profile fields the pipeline reads (the userProfile record). -/
structure UserProfile where
  currentStatus : String
  interests : String
  timeline : String
  stage : String
  extraInfo : Option String
deriving DecidableEq, Repr

/-- JavaScript `a || b` on strings: `b` when `a` is empty, else `a`. -/
def strOr (a b : String) : String := if a = "" then b else a

/-- JavaScript `s ?? ""` / `s || ""` on an optional string. -/
def optStr (s : Option String) : String := s.getD ""

/-- JavaScript falsiness of an optional string credential: absent or empty. -/
def strFalsy : Option String → Bool
  | none => true
  | some s => s == ""

/-- ASCII lowercasing, character by character (JavaScript `toLowerCase()` on
the ASCII strings this pipeline matches against). -/
def strToLower (s : String) : String := ⟨s.data.map Char.toLower⟩

/-- JavaScript `s.slice(0, n)`. -/
def strTake (s : String) (n : Nat) : String := ⟨s.data.take n⟩

/-- JavaScript `s.trim()` (ASCII whitespace). -/
def strTrim (s : String) : String :=
  ⟨((s.data.dropWhile Char.isWhitespace).reverse.dropWhile Char.isWhitespace).reverse⟩

/-- Split a character list at separators: the pieces between separator
characters, empty pieces included. -/
def splitAux (p : Char → Bool) : List Char → List Char → List (List Char)
  | [], acc => [acc.reverse]
  | c :: cs, acc =>
    if p c then acc.reverse :: splitAux p cs [] else splitAux p cs (c :: acc)

/-- JavaScript `s.split(re)` for a single-character separator class. -/
def strSplit (s : String) (p : Char → Bool) : List String :=
  (splitAux p s.data []).map fun cs => ⟨cs⟩

/-- JavaScript `xs.join(sep)`. -/
def joinWith (sep : String) : List String → String
  | [] => ""
  | [x] => x
  | x :: y :: xs => x ++ sep ++ joinWith sep (y :: xs)

/-- Substring occurrence over lists: `pat` occurs somewhere in the list.
Models JavaScript `String.prototype.includes`. -/
def listContainsAux (pat : List Char) : List Char → Bool
  | [] => pat.isEmpty
  | a :: as => pat.isPrefixOf (a :: as) || listContainsAux pat as

/-- JavaScript `s.includes(pat)`. -/
def strContains (s pat : String) : Bool := listContainsAux pat.data s.data

/-- Path-aware selection of search results (stories.ts lines 963-988).
`slice(start, start + limit)` is `drop start` then `take limit`;
`Math.max(total - limit - 2, 0)` is truncated Nat subtraction. -/
def selectSearchResultsForPath (searchResults : List RawSearchResult)
    (limit : Nat) (pathRank : Option Nat) : List RawSearchResult :=
  let total := searchResults.length
  if pathRank = some 2 ∧ total > limit * 2 then
    ((searchResults.drop (total / 3)).take limit)
  else if pathRank = some 3 ∧ total > limit * 2 then
    ((searchResults.drop (total - (limit + 2))).take limit)
  else
    searchResults.take limit

/-- Path rank to display label (stories.ts lines 1044-1048). -/
def pathRankLabel (pathRank : Option Nat) : String :=
  if pathRank = some 2 then "Project & Portfolio Heavy"
  else if pathRank = some 3 then "Unconventional / Cross-Discipline"
  else "Conventional"

/-- The inline sourceType classification of the search-only story builder
(stories.ts lines 1021-1029). -/
def fallbackSourceType (url : String) : SourceType :=
  let lower := strToLower url
  if strContains lower "youtube.com" || strContains lower "youtu.be" ||
      strContains lower "vimeo.com" then .video
  else if strContains lower "linkedin.com" then .linkedin
  else .article

/-- sourceType inference used by the Gemini summarizer path
(stories.ts lines 1090-1099). -/
def inferSourceType (url : String) : SourceType :=
  let lower := strToLower url
  if strContains lower "youtube.com" || strContains lower "youtu.be" ||
      strContains lower "vimeo.com" then .video
  else if strContains lower "linkedin.com" then .linkedin
  else .article

/-- Search-only story builder (stories.ts lines 998-1042).  It first applies
the path-aware selector to its input, then maps each selected result to a
story.  `snippet?.slice(0, 400) ?? default` keeps an empty snippet as-is and
only substitutes the default when the snippet is absent. -/
def buildStoriesFromSearchResults (profile : UserProfile)
    (searchResults : List RawSearchResult) (limit : Nat)
    (pathRank : Option Nat) : List StoryForProfile :=
  let selected := selectSearchResultsForPath searchResults limit pathRank
  selected.enum.map fun p =>
    let index := p.1
    let r := p.2
    { id := "search-" ++ toString (index + 1)
      title := strOr r.title "Career story"
      sourceUrl := strOr r.url "https://example.com"
      sourceType := fallbackSourceType r.url
      shortSummary :=
        match r.snippet with
        | some s => strTake s 400
        | none =>
          "A real career story pulled from the web that looks similar to your situation."
      whyItMatches :=
        "This story was found based on your background (" ++ profile.currentStatus ++
        "), interests (" ++ profile.interests ++ "), stage (" ++ profile.stage ++
        "), and the \"" ++ pathRankLabel pathRank ++ "\" path." }

/-- JavaScript word character class `\w` = `[A-Za-z0-9_]`. -/
def isWordChar (c : Char) : Bool := c.isAlpha || c.isDigit || c = '_'

/-- Does `pat` occur at the head of `s` with `\b` word boundaries on both
sides?  `prev` is the character just before `s` in the scanned text. -/
def wordBoundedAt (prev : Option Char) (s pat : List Char) : Bool :=
  pat.isPrefixOf s &&
    (match prev with | none => true | some c => !isWordChar c) &&
    (match (s.drop pat.length).head? with | none => true | some c => !isWordChar c)

/-- Scan of `s` for a word-bounded occurrence of `pat` (models the regex
`\bpat\b` for a `pat` made of word characters). -/
def wordBoundedSearch (prev : Option Char) (s pat : List Char) : Bool :=
  match s with
  | [] => pat.isEmpty
  | c :: cs => wordBoundedAt prev (c :: cs) pat || wordBoundedSearch (some c) cs pat

/-- `/\bpat\b/.test(s)`. -/
def strContainsWordBounded (s pat : String) : Bool :=
  wordBoundedSearch none s.data pat.data

/-- The lowercased `title snippet url` text the relevance filter matches
against (stories.ts lines 840-844). -/
def filterText (r : RawSearchResult) : String :=
  strToLower r.title ++ " " ++ strToLower (optStr r.snippet) ++ " " ++ strToLower r.url

/-- Career/role keywords the relevance filter requires
(stories.ts lines 811-825). -/
def mustHaveKeywords : List String :=
  ["career", "job", "jobs", "entry level", "internship", "internships",
   "sales", "business", "business development", "account executive",
   "sales development representative", "bdr", "sdr"]

/-- The institutional-noise rejection patterns (stories.ts lines 827-837).
All patterns except `\bcatalog\b` are plain case-insensitive substrings of
the already-lowercased text. -/
def relevanceBadPattern (text : String) : Bool :=
  strContains text "student catalog" ||
  strContainsWordBounded text "catalog" ||
  strContains text "handbook" ||
  strContains text "version ii" ||
  strContains text "technical college" ||
  strContains text "student-parent handbook" ||
  strContains text "policies and procedures" ||
  strContains text "press release" ||
  strContains text "global releases"

/-- `/quantum|machine learning|deep learning|ai model|neural network/i`
applied to the (lowercased) result text (stories.ts line 852). -/
def hasTechKeyword (text : String) : Bool :=
  strContains text "quantum" || strContains text "machine learning" ||
  strContains text "deep learning" || strContains text "ai model" ||
  strContains text "neural network"

/-- `/quantum|ai|artificial intelligence|machine learning/i` applied to one
profile field; the `/i` flag is modelled by lowercasing the field. -/
def userTechField (s : String) : Bool :=
  let ls := strToLower s
  strContains ls "quantum" || strContains ls "ai" ||
  strContains ls "artificial intelligence" || strContains ls "machine learning"

/-- Whether the user's own interests or extra-info mention the tech markers
(stories.ts lines 854-856). -/
def userMentionsTech (profile : UserProfile) : Bool :=
  userTechField profile.interests || userTechField (optStr profile.extraInfo)

/-- The relevance filter's tech-jargon rejection clause
(stories.ts lines 851-860): reject when the result text carries a tech
marker the user did not mention. -/
def techRejected (r : RawSearchResult) (profile : UserProfile) : Bool :=
  hasTechKeyword (filterText r) && !userMentionsTech profile

/-- Tokens of the user's interests field: lowercased, split on commas and
whitespace, empties removed (stories.ts lines 806-809). -/
def interestTokens (interests : String) : List String :=
  (strSplit (strToLower interests) fun c => c = ',' || c.isWhitespace).filter
    fun t => !(t == "")

/-- At least one career keyword occurs in the text (stories.ts 863-865). -/
def hasCareerKeyword (text : String) : Bool :=
  mustHaveKeywords.any fun kw => strContains text kw

/-- Some interest token of length ≥ 3 occurs in the text (stories.ts 868-870). -/
def hasInterestMatch (text interests : String) : Bool :=
  let toks := interestTokens interests
  decide (toks.length > 0) &&
    toks.any fun tok => decide (tok.length ≥ 3) && strContains text tok

/-- The per-result predicate of the relevance filter (stories.ts 839-873). -/
def relevanceKeep (r : RawSearchResult) (profile : UserProfile) : Bool :=
  let text := filterText r
  if relevanceBadPattern text then false
  else if techRejected r profile then false
  else hasCareerKeyword text || hasInterestMatch text profile.interests

/-- Relevance filter (stories.ts lines 794-874). -/
def filterSearchResultsForRelevance (searchResults : List RawSearchResult)
    (profile : UserProfile) : List RawSearchResult :=
  searchResults.filter fun r => relevanceKeep r profile

/-- The light pre-filter of the story orchestrator (stories.ts 1771-1787):
drops quantum-computing / culinary-institute spam, keeps everything else
(the interest branch returns true in both arms). -/
def lightFilter (searchResults : List RawSearchResult) : List RawSearchResult :=
  searchResults.filter fun r =>
    let text := strToLower r.title ++ " " ++ strToLower (optStr r.snippet)
    !(strContains text "quantum computing" || strContains text "culinary institute")

/-- One parsed entry of the Gemini summarizer's JSON `stories` array. -/
structure GeminiStoryItem where
  index : Int
  shortSummary : String
  whyItMatches : String
deriving DecidableEq, Repr

/-- The pure response-mapping core of the Gemini summarizer
(stories.ts lines 1273-1301): each parsed item is validated (index in range,
referenced result has url and title, both summary fields non-empty) and
mapped back onto the original result; invalid items are dropped singly. -/
def mapGeminiStories (results : List RawSearchResult) (pathRank : Option Nat)
    (items : List GeminiStoryItem) : List StoryForProfile :=
  items.filterMap fun story =>
    if story.index < 0 ∨ (results.length : Int) ≤ story.index then none
    else
      match results[story.index.toNat]? with
      | none => none
      | some r =>
        if r.url = "" ∨ r.title = "" then none
        else if story.shortSummary = "" ∨ story.whyItMatches = "" then none
        else some
          { id := "gemini-" ++ toString (pathRank.getD 1) ++ "-" ++ toString story.index
            title := r.title
            sourceUrl := r.url
            sourceType := inferSourceType r.url
            shortSummary := story.shortSummary
            whyItMatches := story.whyItMatches }

/-- Reasons for the fixed placeholder story (stories.ts line 1603). -/
inductive PlaceholderReason
  | noKeys
  | noSearchResults
  | geminiFailed
deriving DecidableEq, Repr

def placeholderReasonSlug : PlaceholderReason → String
  | .noKeys => "no-keys"
  | .noSearchResults => "no-search-results"
  | .geminiFailed => "gemini-failed"

/-- The fixed placeholder story (stories.ts lines 1603-1632). -/
def getPlaceholderStory (reason : PlaceholderReason) : StoryForProfile :=
  let fields : String × String × String :=
    match reason with
    | .noKeys =>
      ("Stories temporarily unavailable",
       "Real stories require AI and web search keys to be configured.",
       "Once the AI and search keys are added, this section will be populated with live examples that match your profile.")
    | .noSearchResults =>
      ("No stories found for your specific situation",
       "We couldn't find relevant career stories matching your profile through web search.",
       "Try adjusting your inputs or checking back later. The search may not have found matching content for your unique combination of background, interests, and timeline.")
    | .geminiFailed =>
      ("Story generation temporarily unavailable",
       "We found relevant search results but couldn't process them into personalized stories right now.",
       "This is usually a temporary issue. Please try again in a few moments.")
  { id := "placeholder-" ++ placeholderReasonSlug reason
    title := fields.1
    sourceUrl := "https://trajectory.app"
    sourceType := .other
    shortSummary := fields.2.1
    whyItMatches := fields.2.2 }

/-- Provenance tag of an overview (stories.ts line 1998). -/
inductive OverviewSource
  | ai
  | fallback
  | static
deriving DecidableEq, Repr

structure OverviewResult where
  overview : String
  source : OverviewSource
deriving DecidableEq, Repr

/-- Deterministic non-AI fallback overview (stories.ts lines 1544-1594). -/
def buildFallbackOverview (profile : UserProfile) (pathRank : Nat)
    (pathLabel : String) (searchResults : List RawSearchResult) : String :=
  let safeLabel :=
    strOr pathLabel
      (if pathRank = 2 then "Project & Portfolio Heavy"
       else if pathRank = 3 then "Unconventional / Cross-Discipline"
       else "Conventional")
  let titles :=
    ((searchResults.map fun r => r.title).filter
      fun t => !(t == "") && decide ((strTrim t).length > 0)).take 2
  let summary :=
    "Summary: For someone in " ++ strOr profile.currentStatus "your field" ++
    " at the " ++ strOr profile.stage "current" ++ " stage, the " ++ safeLabel ++
    " path typically means exploring practical ways to apply your skills over the next " ++
    strOr profile.timeline "few months" ++ ". This path focuses on " ++
    (if pathRank = 2 then "building real projects and portfolio pieces you can showcase"
     else if pathRank = 3 then "creative combinations of skills and non-linear career moves"
     else "structured routes like internships, entry-level roles, and well-defined programs") ++
    "."
  let actions : List String :=
    if pathRank = 2 then
      ["pick an industry and design a small sales project",
       "build a repeatable outreach script",
       "create a simple CRM or tracking system",
       "turn your work into portfolio pieces or case studies"]
    else if pathRank = 3 then
      ["explore hybrid roles that combine multiple fields",
       "reach out to people in unconventional career paths",
       "build projects that showcase cross-disciplinary skills",
       "look for opportunities that value your unique combination of interests"]
    else
      ["search for entry-level roles and internships in your target field",
       "build relevant skills through courses or side projects",
       "reach out to professionals for informational conversations",
       "apply to structured programs that match your timeline"]
  let nextMoves0 :=
    "Next moves: " ++ joinWith ", " (actions.take 4) ++ "."
  let nextMoves :=
    match titles with
    | [] => nextMoves0
    | t :: _ =>
      nextMoves0 ++ " If you want specific examples, start with '" ++ t ++ "'."
  summary ++ "\n\n" ++ nextMoves

/-- Static overview text used when keys are missing or search is empty
(stories.ts lines 2024-2029 and 2092-2097). -/
def staticOverviewUnavailable : String :=
  "AI overview is temporarily unavailable for this path right now, but you can still explore the links below for real examples."

/-- Static overview text used when the relevance filter leaves nothing
(stories.ts lines 2118-2123). -/
def staticOverviewNoRelevant : String :=
  "AI overview is temporarily unavailable for this path right now because we couldn't find relevant real-world examples. Try adjusting your inputs or path and generating again."

/-- First (superseded) revision of the story orchestrator
(stories.ts lines 482-757): the placeholder-on-missing-keys variant, with no
relevance filtering.  `webResults` is the value the Search Client produced
(empty on any failure); `aiStories` is the value the Gemini summarizer
produced (empty on any failure).  The NOT_FOUND throw is the error case. -/
def generateForProfileV1 (geminiKey webSearchKey : Option String)
    (profileLookup : Option UserProfile) (webResults : List RawSearchResult)
    (aiStories : List StoryForProfile) (pathRankInput : Option Nat) :
    Except String (List StoryForProfile) :=
  match profileLookup with
  | none => .error "NOT_FOUND"
  | some profile =>
    if strFalsy geminiKey || strFalsy webSearchKey then
      .ok [getPlaceholderStory .noKeys]
    else
      let pathRank := pathRankInput.getD 1
      if webResults.length = 0 then
        .ok [getPlaceholderStory .noSearchResults]
      else
        let selectedResults :=
          selectSearchResultsForPath webResults 4 (some pathRank)
        if strFalsy geminiKey then
          let storiesFromSearch :=
            buildStoriesFromSearchResults profile selectedResults 4 (some pathRank)
          if storiesFromSearch.length = 0 then
            .ok [getPlaceholderStory .noSearchResults]
          else .ok storiesFromSearch
        else
          if aiStories.length = 0 then
            let storiesFromSearch :=
              buildStoriesFromSearchResults profile selectedResults 4 (some pathRank)
            if storiesFromSearch.length = 0 then
              .ok [getPlaceholderStory .noSearchResults]
            else .ok storiesFromSearch
          else .ok aiStories

/-- Current revision of the story orchestrator (stories.ts lines 1656-1984):
the empty-array-on-missing-keys variant with the light filter and the
relevance filter.  Oracle parameters as in `generateForProfileV1`.  The
best-effort caseStudy writes never change the response and are omitted. -/
def generateForProfile (geminiKey webSearchKey : Option String)
    (profileLookup : Option UserProfile) (webResults : List RawSearchResult)
    (aiStories : List StoryForProfile) (pathRankInput : Option Nat) :
    Except String (List StoryForProfile) :=
  match profileLookup with
  | none => .error "NOT_FOUND"
  | some profile =>
    if strFalsy geminiKey || strFalsy webSearchKey then
      .ok []
    else
      let pathRank := pathRankInput.getD 1
      let filteredResults := lightFilter webResults
      if filteredResults.length = 0 then
        .ok []
      else
        let relevanceFilteredResults :=
          filterSearchResultsForRelevance filteredResults profile
        if relevanceFilteredResults.length = 0 then
          .ok []
        else
          let selectedResults :=
            selectSearchResultsForPath relevanceFilteredResults 4 (some pathRank)
          if strFalsy geminiKey then
            let storiesFromSearch :=
              buildStoriesFromSearchResults profile selectedResults 4 (some pathRank)
            if storiesFromSearch.length = 0 then .ok []
            else .ok storiesFromSearch
          else
            if aiStories.length = 0 then
              let storiesFromSearch :=
                buildStoriesFromSearchResults profile selectedResults 4 (some pathRank)
              if storiesFromSearch.length = 0 then .ok []
              else .ok storiesFromSearch
            else .ok aiStories

/-- Overview orchestrator (stories.ts lines 1990-2165).  `aiOverview` is the
value the Gemini overview call produced (`none` on any failure; the inner
helper also returns null for an empty joined text, and the orchestrator's
`if (!overview)` treats an empty string as a failure too, which the
`Option.getD` + emptiness test reproduces). -/
def generateOverviewForProfile (geminiKey webSearchKey : Option String)
    (profileLookup : Option UserProfile) (webResults : List RawSearchResult)
    (aiOverview : Option String) (pathRankInput : Option Nat)
    (pathLabelInput : Option String) : Except String OverviewResult :=
  match profileLookup with
  | none => .error "NOT_FOUND"
  | some profile =>
    if strFalsy geminiKey || strFalsy webSearchKey then
      .ok { overview := staticOverviewUnavailable, source := .static }
    else
      let pathRank := pathRankInput.getD 1
      let pathLabel := pathLabelInput.getD ""
      if webResults.length = 0 then
        .ok { overview := staticOverviewUnavailable, source := .static }
      else
        let filteredResults := filterSearchResultsForRelevance webResults profile
        if filteredResults.length = 0 then
          .ok { overview := staticOverviewNoRelevant, source := .static }
        else
          let topResults := filteredResults.take (min 6 filteredResults.length)
          match aiOverview with
          | none =>
            .ok { overview := buildFallbackOverview profile pathRank pathLabel topResults
                  source := .fallback }
          | some s =>
            if s = "" then
              .ok { overview := buildFallbackOverview profile pathRank pathLabel topResults
                    source := .fallback }
            else .ok { overview := s, source := .ai }

/-- The selector as the spec/claim sentences describe it (rank 2 and rank 3
take their special slices already at `total ≥ 2N`).  This definition follows
the claim's words, to be compared with `selectSearchResultsForPath`. -/
def claimedSelector (results : List RawSearchResult) (n rank : Nat) :
    List RawSearchResult :=
  let total := results.length
  if rank = 2 then
    if total ≥ 2 * n then (results.drop (total / 3)).take n else results.take n
  else if rank = 3 then
    if total ≥ 2 * n then (results.drop (total - (n + 2))).take n
    else results.take n
  else results.take n

/-- The claim's selector description amended minimally: the special rank 2
and rank 3 slices apply only at `total > 2N`, as the code tests. -/
def amendedSelector (results : List RawSearchResult) (n rank : Nat) :
    List RawSearchResult :=
  let total := results.length
  if rank = 2 then
    if total > 2 * n then (results.drop (total / 3)).take n else results.take n
  else if rank = 3 then
    if total > 2 * n then (results.drop (total - (n + 2))).take n
    else results.take n
  else results.take n

/-- A concrete distinct search result, for counterexamples and witnesses. -/
def mkResult (n : Nat) : RawSearchResult :=
  ⟨"t" ++ toString n, "https://example.com/" ++ toString n, none⟩

/-- A concrete list of `n` pairwise distinct search results. -/
def resultsOfLen (n : Nat) : List RawSearchResult := (List.range n).map mkResult

/-- A concrete profile, for counterexamples and witnesses. -/
def sampleProfile : UserProfile :=
  ⟨"cs student", "sales", "3 months", "exploring", none⟩

/-- A concrete result that passes both relevance filters (career keyword
present, no noise patterns, no tech markers). -/
def careerResult : RawSearchResult :=
  ⟨"Career story example", "https://example.com/career", none⟩

/-- A result whose text carries the "deep learning" tech marker but is
otherwise relevant (career keyword present, no institutional-noise
pattern). -/
def deepLearningResult : RawSearchResult :=
  ⟨"Deep learning career stories", "https://example.com/dl", none⟩

/-- A profile whose interests field is exactly the "deep learning" marker. -/
def deepLearningProfile : UserProfile :=
  ⟨"student", "deep learning", "3 months", "exploring", none⟩

/-- A profile whose interests mention "ai", one of the markers the code's
user-side pattern actually tests. -/
def aiInterestsProfile : UserProfile :=
  ⟨"student", "ai", "3 months", "exploring", none⟩

/-- The story the search-only builder produces from `mkResult 0` for
`sampleProfile` on the default path. -/
def sampleBuiltStory : StoryForProfile :=
  { id := "search-1"
    title := "t0"
    sourceUrl := "https://example.com/0"
    sourceType := .article
    shortSummary :=
      "A real career story pulled from the web that looks similar to your situation."
    whyItMatches :=
      "This story was found based on your background (cs student), interests (sales), stage (exploring), and the \"Conventional\" path." }

/-! ### Helper lemmas -/

theorem selectSearchResultsForPath_length (rs : List RawSearchResult) (k : Nat)
    (pr : Option Nat) :
    (selectSearchResultsForPath rs k pr).length = min k rs.length := by
  simp only [selectSearchResultsForPath]
  split
  · rename_i h
    obtain ⟨-, h2⟩ := h
    simp only [List.length_take, List.length_drop]
    omega
  · split
    · rename_i h' h
      obtain ⟨-, h2⟩ := h
      simp only [List.length_take, List.length_drop]
      omega
    · simp only [List.length_take]

theorem buildStoriesFromSearchResults_length (profile : UserProfile)
    (rs : List RawSearchResult) (k : Nat) (pr : Option Nat) :
    (buildStoriesFromSearchResults profile rs k pr).length = min k rs.length := by
  simp only [buildStoriesFromSearchResults]
  rw [List.length_map, List.enum_length, selectSearchResultsForPath_length]

theorem head?_take_pos {α : Type} (xs : List α) (k : Nat) (hk : 0 < k) :
    (xs.take k).head? = xs.head? := by
  cases xs with
  | nil => simp
  | cons a as =>
    cases k with
    | zero => omega
    | succ m => simp

theorem head?_drop_eq {α : Type} (l : List α) (a : Nat) :
    (l.drop a).head? = l[a]? := by
  induction l generalizing a with
  | nil => simp
  | cons x xs ih =>
    cases a with
    | zero => simp
    | succ n =>
      rw [List.drop_succ_cons, List.getElem?_cons_succ]
      exact ih n

theorem take_drop_ne_of_nodup {α : Type} (l : List α) (a b k : Nat)
    (hk : 0 < k) (ha : a < l.length) (hab : a ≠ b)
    (hnd : l.Nodup) : (l.drop a).take k ≠ (l.drop b).take k := by
  intro h
  have h1 : ((l.drop a).take k).head? = ((l.drop b).take k).head? := by rw [h]
  rw [head?_take_pos _ _ hk, head?_take_pos _ _ hk, head?_drop_eq,
    head?_drop_eq] at h1
  exact hab (List.getElem?_inj ha hnd h1)

theorem take_drop_isSlice {α : Type} (l : List α) (a k : Nat) :
    ∃ s t, s ++ (l.drop a).take k ++ t = l :=
  ⟨l.take a, (l.drop a).drop k, by
    rw [List.append_assoc, List.take_append_drop, List.take_append_drop]⟩

theorem str_append_ne_left {a : String} (b : String) (h : a ≠ "") :
    a ++ b ≠ "" := by
  intro hc
  apply h
  have hlen := congrArg String.length hc
  rw [String.length_append, String.length_empty] at hlen
  have hd : a.data.length = 0 := by
    have h0 : a.length = 0 := by omega
    exact h0
  cases a with
  | mk da =>
    cases List.length_eq_zero.mp hd
    rfl

theorem buildFallbackOverview_ne_empty (profile : UserProfile) (pathRank : Nat)
    (pathLabel : String) (searchResults : List RawSearchResult) :
    buildFallbackOverview profile pathRank pathLabel searchResults ≠ "" := by
  simp only [buildFallbackOverview]
  repeat apply str_append_ne_left
  decide

/-! ### Claim theorems -/

/-- C2 counterexample: the claim quantifies over `total ≥ 2*limit`, but at
`total = 8, limit = 4` all three rank selections are the same first slice; at
`total = 9, limit = 4` the rank 2 and rank 3 selections coincide; and at
`total = 3, limit = 1` the rank 1 and rank 3 selections coincide — so the
rank selections are not pairwise different there. -/
theorem c2_counterexample :
    selectSearchResultsForPath (resultsOfLen 8) 4 (some 1) =
      selectSearchResultsForPath (resultsOfLen 8) 4 (some 2) ∧
    selectSearchResultsForPath (resultsOfLen 9) 4 (some 2) =
      selectSearchResultsForPath (resultsOfLen 9) 4 (some 3) ∧
    selectSearchResultsForPath (resultsOfLen 3) 1 (some 1) =
      selectSearchResultsForPath (resultsOfLen 3) 1 (some 3) := by
  refine ⟨by decide, by decide, by decide⟩

/-- C2 (amended): for every duplicate-free search-result list with
`total > 2*limit`, `limit ≥ 2` and `⌊total/3⌋ ≠ total - limit - 2`, the
Path-Aware Selector's rank 1, 2 and 3 selections are pairwise different
slices and each has length exactly `limit`. -/
theorem c2_selector_diversity (rs : List RawSearchResult) (k : Nat)
    (hnd : rs.Nodup) (hk : 2 ≤ k) (htot : rs.length > 2 * k)
    (hmid : rs.length / 3 ≠ rs.length - (k + 2)) :
    (selectSearchResultsForPath rs k (some 1) ≠
       selectSearchResultsForPath rs k (some 2) ∧
     selectSearchResultsForPath rs k (some 1) ≠
       selectSearchResultsForPath rs k (some 3) ∧
     selectSearchResultsForPath rs k (some 2) ≠
       selectSearchResultsForPath rs k (some 3)) ∧
    (selectSearchResultsForPath rs k (some 1)).length = k ∧
    (selectSearchResultsForPath rs k (some 2)).length = k ∧
    (selectSearchResultsForPath rs k (some 3)).length = k := by
  have h2k : rs.length > k * 2 := by omega
  have hsel1 : selectSearchResultsForPath rs k (some 1) = (rs.drop 0).take k := by
    simp [selectSearchResultsForPath]
  have hsel2 : selectSearchResultsForPath rs k (some 2) =
      (rs.drop (rs.length / 3)).take k := by
    simp [selectSearchResultsForPath, h2k]
  have hsel3 : selectSearchResultsForPath rs k (some 3) =
      (rs.drop (rs.length - (k + 2))).take k := by
    simp [selectSearchResultsForPath, h2k]
  refine ⟨⟨?_, ?_, ?_⟩, ?_, ?_, ?_⟩
  · rw [hsel1, hsel2]
    exact take_drop_ne_of_nodup rs 0 (rs.length / 3) k (by omega) (by omega)
      (by omega) hnd
  · rw [hsel1, hsel3]
    exact take_drop_ne_of_nodup rs 0 (rs.length - (k + 2)) k (by omega)
      (by omega) (by omega) hnd
  · rw [hsel2, hsel3]
    exact take_drop_ne_of_nodup rs (rs.length / 3) (rs.length - (k + 2)) k
      (by omega) (by omega) hmid hnd
  all_goals rw [selectSearchResultsForPath_length]
  all_goals omega

/-- C2 witness: the amended diversity property at the concrete duplicate-free
10-result list with limit 4. -/
theorem c2_witness :
    (selectSearchResultsForPath (resultsOfLen 10) 4 (some 1) ≠
       selectSearchResultsForPath (resultsOfLen 10) 4 (some 2) ∧
     selectSearchResultsForPath (resultsOfLen 10) 4 (some 1) ≠
       selectSearchResultsForPath (resultsOfLen 10) 4 (some 3) ∧
     selectSearchResultsForPath (resultsOfLen 10) 4 (some 2) ≠
       selectSearchResultsForPath (resultsOfLen 10) 4 (some 3)) ∧
    (selectSearchResultsForPath (resultsOfLen 10) 4 (some 1)).length = 4 ∧
    (selectSearchResultsForPath (resultsOfLen 10) 4 (some 2)).length = 4 ∧
    (selectSearchResultsForPath (resultsOfLen 10) 4 (some 3)).length = 4 :=
  c2_selector_diversity (resultsOfLen 10) 4 (by decide) (by decide) (by decide)
    (by decide)

/-- C3 counterexample: the claim's selector takes the rank 2 middle slice
already at `total = 2N` (8 results, N = 4), but the code takes the first N
there, so the claimed function differs from the implemented one. -/
theorem c3_counterexample :
    claimedSelector (resultsOfLen 8) 4 2 ≠
      selectSearchResultsForPath (resultsOfLen 8) 4 (some 2) := by
  decide

/-- C3 (amended): with the rank 2 / rank 3 condition amended from
`total ≥ 2N` to `total > 2N`, the claimed selector formula equals
`selectSearchResultsForPath` on all inputs; and for 10 filtered results with
limit 4 and rank 2 the selector returns results[3..6]. -/
theorem c3_selector_formula :
    (∀ (results : List RawSearchResult) (n rank : Nat),
      amendedSelector results n rank =
        selectSearchResultsForPath results n (some rank)) ∧
    selectSearchResultsForPath (resultsOfLen 10) 4 (some 2) =
      ((resultsOfLen 10).drop 3).take 4 := by
  constructor
  · intro results n rank
    simp only [amendedSelector, selectSearchResultsForPath]
    rcases eq_or_ne rank 2 with h2 | h2
    · subst h2
      by_cases ht : results.length > 2 * n
      · have ht' : results.length > n * 2 := by omega
        simp [ht, ht']
      · have ht' : ¬results.length > n * 2 := by omega
        simp [ht, ht']
    · rcases eq_or_ne rank 3 with h3 | h3
      · subst h3
        by_cases ht : results.length > 2 * n
        · have ht' : results.length > n * 2 := by omega
          simp [ht, ht']
        · have ht' : ¬results.length > n * 2 := by omega
          simp [ht, ht']
      · simp [h2, h3]
  · decide

/-- C6: the sourceType computed in the AI-summarizer path
(`inferSourceType`) and the one computed inline in the search-only fallback
path (`fallbackSourceType`) agree on every url, and both classify
video-hosting domains as video, linkedin.com as linkedin (case-insensitively)
and everything else as article. -/
theorem c6_sourceType_agreement :
    (∀ url, fallbackSourceType url = inferSourceType url) ∧
    inferSourceType "https://www.YouTube.com/watch?v=1" = SourceType.video ∧
    inferSourceType "https://youtu.be/abc" = SourceType.video ∧
    inferSourceType "https://vimeo.com/123" = SourceType.video ∧
    inferSourceType "https://www.LinkedIn.com/in/someone" = SourceType.linkedin ∧
    inferSourceType "https://example.com/blog/post" = SourceType.article := by
  refine ⟨fun url => rfl, ?_, ?_, ?_, ?_, ?_⟩ <;> decide

/-- C8 counterexample: the search-only story builder applies the path-aware
selector (default limit 4) to its input first, so on a 5-result input it
produces 4 stories, not one per input result. -/
theorem c8_counterexample :
    (buildStoriesFromSearchResults sampleProfile (resultsOfLen 5) 4
        (some 1)).length ≠ (resultsOfLen 5).length := by
  decide

/-- C8 (amended): the search-only story builder is total and produces exactly
one story per selected result — its output length equals the length of the
path-aware selection of its input, which is min(limit, input length); in
particular it equals the input length exactly when the input (being
post-selection) has at most `limit` elements. -/
theorem c8_builder_length :
    ∀ (profile : UserProfile) (rs : List RawSearchResult) (k : Nat)
      (pr : Option Nat),
      (buildStoriesFromSearchResults profile rs k pr).length =
        (selectSearchResultsForPath rs k pr).length ∧
      (buildStoriesFromSearchResults profile rs k pr).length =
        min k rs.length := by
  intro profile rs k pr
  constructor
  · simp only [buildStoriesFromSearchResults]
    rw [List.length_map, List.enum_length]
  · exact buildStoriesFromSearchResults_length profile rs k pr

/-- C9: the path-aware selector always returns a contiguous slice of its
input (some prefix and suffix surround it), of length at most `limit`, and
the slice is non-empty whenever the input is non-empty and the limit is
positive. -/
theorem c9_selector_slice (rs : List RawSearchResult) (k : Nat)
    (pr : Option Nat) :
    (∃ s t, s ++ selectSearchResultsForPath rs k pr ++ t = rs) ∧
    (selectSearchResultsForPath rs k pr).length ≤ k ∧
    (rs ≠ [] → 0 < k → selectSearchResultsForPath rs k pr ≠ []) := by
  refine ⟨?_, ?_, ?_⟩
  · simp only [selectSearchResultsForPath]
    split
    · exact take_drop_isSlice rs _ k
    · split
      · exact take_drop_isSlice rs _ k
      · have h := take_drop_isSlice rs 0 k
        simpa using h
  · rw [selectSearchResultsForPath_length]
    omega
  · intro hne hk hnil
    have hlen := selectSearchResultsForPath_length rs k pr
    have hpos : 0 < rs.length := List.length_pos.mpr hne
    rw [hnil] at hlen
    simp at hlen
    omega

/-- C9 witness: on a concrete non-empty 3-result list with positive limit the
selection is non-empty. -/
theorem c9_witness :
    selectSearchResultsForPath (resultsOfLen 3) 4 (some 2) ≠ [] :=
  (c9_selector_slice (resultsOfLen 3) 4 (some 2)).2.2 (by decide) (by decide)

/-- C10: `inferSourceType` never yields `other`; no story produced by the
search-only builder or by the Gemini response mapping has sourceType `other`;
and every fixed placeholder story has sourceType `other`. -/
theorem c10_sourceType_other_only_placeholder :
    (∀ url, inferSourceType url ≠ SourceType.other) ∧
    (∀ (profile : UserProfile) (rs : List RawSearchResult) (k : Nat)
        (pr : Option Nat) (s : StoryForProfile),
      s ∈ buildStoriesFromSearchResults profile rs k pr →
        s.sourceType ≠ SourceType.other) ∧
    (∀ (results : List RawSearchResult) (pr : Option Nat)
        (items : List GeminiStoryItem) (s : StoryForProfile),
      s ∈ mapGeminiStories results pr items → s.sourceType ≠ SourceType.other) ∧
    (∀ reason, (getPlaceholderStory reason).sourceType = SourceType.other) := by
  have hinf : ∀ url, inferSourceType url ≠ SourceType.other := by
    intro url
    simp only [inferSourceType]
    split
    · exact fun h => SourceType.noConfusion h
    · split
      · exact fun h => SourceType.noConfusion h
      · exact fun h => SourceType.noConfusion h
  refine ⟨hinf, ?_, ?_, ?_⟩
  · intro profile rs k pr s hs
    simp only [buildStoriesFromSearchResults, List.mem_map] at hs
    obtain ⟨p, -, rfl⟩ := hs
    exact hinf p.2.url
  · intro results pr items s hs
    simp only [mapGeminiStories, List.mem_filterMap] at hs
    obtain ⟨it, -, hf⟩ := hs
    split at hf
    · exact absurd hf (by simp)
    · split at hf
      · exact absurd hf (by simp)
      · split at hf
        · exact absurd hf (by simp)
        · split at hf
          · exact absurd hf (by simp)
          · injection hf with hf'
            subst hf'
            exact hinf _
  · intro reason
    cases reason <;> rfl

/-- C10 witness: the concrete story the builder produces from `mkResult 0`
has a non-`other` sourceType. -/
theorem c10_witness : sampleBuiltStory.sourceType ≠ SourceType.other :=
  c10_sourceType_other_only_placeholder.2.1 sampleProfile [mkResult 0] 4 none
    sampleBuiltStory (by decide)

/-- C7 counterexample: a result whose text contains the "deep learning"
marker is rejected by the relevance filter even though the user's interests
field contains the very same marker (the code's user-side pattern tests
quantum/ai/artificial intelligence/machine learning, not deep learning); the
result carries a career keyword and no noise pattern, so the tech clause is
the rejecting one. -/
theorem c7_counterexample :
    strContains (filterText deepLearningResult) "deep learning" = true ∧
    strContains (strToLower deepLearningProfile.interests) "deep learning" = true ∧
    hasCareerKeyword (filterText deepLearningResult) = true ∧
    relevanceBadPattern (filterText deepLearningResult) = false ∧
    filterSearchResultsForRelevance [deepLearningResult] deepLearningProfile = [] := by
  refine ⟨by decide, by decide, by decide, by decide, by decide⟩

/-- C7 (amended): the tech-marker clause never rejects a result when the
user's interests or extra-info match the code's user-side pattern (quantum,
"ai", artificial intelligence, machine learning); it rejects exactly when the
result text has a tech marker and neither field matches that pattern, and a
result it rejects is dropped by the relevance filter. -/
theorem c7_tech_clause (r : RawSearchResult) (profile : UserProfile) :
    (userMentionsTech profile = true → techRejected r profile = false) ∧
    (techRejected r profile = true →
      hasTechKeyword (filterText r) = true ∧ userMentionsTech profile = false) ∧
    (techRejected r profile = true →
      filterSearchResultsForRelevance [r] profile = []) := by
  refine ⟨?_, ?_, ?_⟩
  · intro h
    simp [techRejected, h]
  · intro h
    simp only [techRejected, Bool.and_eq_true, Bool.not_eq_true'] at h
    exact ⟨h.1, h.2⟩
  · intro h
    have hk : relevanceKeep r profile = false := by
      simp [relevanceKeep, h]
    simp [filterSearchResultsForRelevance, List.filter_cons, hk]

/-- C7 witness: for a profile whose interests say "ai", the tech clause does
not reject the deep-learning result. -/
theorem c7_witness : techRejected deepLearningResult aiInterestsProfile = false :=
  (c7_tech_clause deepLearningResult aiInterestsProfile).1 (by decide)

/-- C4: with either provider credential absent (or empty), the
placeholder-variant orchestrator returns the single fixed "no-keys"
placeholder story, the current orchestrator returns the empty array, and the
overview orchestrator returns the fixed static-provenance text — none of
them throws. -/
theorem c4_missing_keys (geminiKey webSearchKey : Option String)
    (profile : UserProfile) (webResults : List RawSearchResult)
    (aiStories : List StoryForProfile) (aiOverview : Option String)
    (pathRankInput : Option Nat) (pathLabelInput : Option String)
    (hk : (strFalsy geminiKey || strFalsy webSearchKey) = true) :
    generateForProfileV1 geminiKey webSearchKey (some profile) webResults
        aiStories pathRankInput = .ok [getPlaceholderStory .noKeys] ∧
    generateForProfile geminiKey webSearchKey (some profile) webResults
        aiStories pathRankInput = .ok [] ∧
    generateOverviewForProfile geminiKey webSearchKey (some profile) webResults
        aiOverview pathRankInput pathLabelInput =
      .ok { overview := staticOverviewUnavailable, source := .static } := by
  refine ⟨?_, ?_, ?_⟩
  · simp [generateForProfileV1, hk]
  · simp [generateForProfile, hk]
  · simp [generateOverviewForProfile, hk]

/-- C4 witness: at a concrete profile with the Gemini key absent, all three
operations return their fixed no-keys results. -/
theorem c4_witness :
    generateForProfileV1 none (some "tvly-key") (some sampleProfile) [] [] none =
      .ok [getPlaceholderStory .noKeys] ∧
    generateForProfile none (some "tvly-key") (some sampleProfile) [] [] none =
      .ok [] ∧
    generateOverviewForProfile none (some "tvly-key") (some sampleProfile) []
        none none none =
      .ok { overview := staticOverviewUnavailable, source := .static } :=
  c4_missing_keys none (some "tvly-key") sampleProfile [] [] none none none
    (by decide)

/-- C5: for every stored profile and every outcome of the oracles, the
overview operation returns ok with non-empty overview text and a source tag
among ai, fallback and static. -/
theorem c5_overview_always_nonempty (geminiKey webSearchKey : Option String)
    (profile : UserProfile) (webResults : List RawSearchResult)
    (aiOverview : Option String) (pathRankInput : Option Nat)
    (pathLabelInput : Option String) :
    ∃ r : OverviewResult,
      generateOverviewForProfile geminiKey webSearchKey (some profile)
          webResults aiOverview pathRankInput pathLabelInput = .ok r ∧
      r.overview ≠ "" ∧
      (r.source = .ai ∨ r.source = .fallback ∨ r.source = .static) := by
  simp only [generateOverviewForProfile]
  split
  · exact ⟨_, rfl, by decide, Or.inr (Or.inr rfl)⟩
  · split
    · exact ⟨_, rfl, by decide, Or.inr (Or.inr rfl)⟩
    · split
      · exact ⟨_, rfl, by decide, Or.inr (Or.inr rfl)⟩
      · split
        · exact ⟨_, rfl, buildFallbackOverview_ne_empty _ _ _ _,
            Or.inr (Or.inl rfl)⟩
        · split
          · exact ⟨_, rfl, buildFallbackOverview_ne_empty _ _ _ _,
              Or.inr (Or.inl rfl)⟩
          · rename_i s hs
            exact ⟨_, rfl, hs, Or.inl rfl⟩

/-- C1: when both keys are present, the AI summarizer returns zero stories
and the search client plus relevance filtering produced at least one result,
the orchestrator returns exactly the search-only builder's output computed
from the same selected results, and that list is non-empty. -/
theorem c1_fallback_same_selection (geminiKey webSearchKey : Option String)
    (profile : UserProfile) (webResults : List RawSearchResult)
    (pathRankInput : Option Nat)
    (hg : strFalsy geminiKey = false) (hw : strFalsy webSearchKey = false)
    (hrel : filterSearchResultsForRelevance (lightFilter webResults) profile ≠ []) :
    generateForProfile geminiKey webSearchKey (some profile) webResults []
        pathRankInput =
      .ok (buildStoriesFromSearchResults profile
        (selectSearchResultsForPath
          (filterSearchResultsForRelevance (lightFilter webResults) profile) 4
          (some (pathRankInput.getD 1))) 4 (some (pathRankInput.getD 1))) ∧
    buildStoriesFromSearchResults profile
        (selectSearchResultsForPath
          (filterSearchResultsForRelevance (lightFilter webResults) profile) 4
          (some (pathRankInput.getD 1))) 4 (some (pathRankInput.getD 1)) ≠ [] := by
  set rel := filterSearchResultsForRelevance (lightFilter webResults) profile
    with hrel_def
  set sel := selectSearchResultsForPath rel 4 (some (pathRankInput.getD 1))
    with hsel_def
  set out := buildStoriesFromSearchResults profile sel 4
    (some (pathRankInput.getD 1)) with hout_def
  have hrelpos : 0 < rel.length := List.length_pos.mpr hrel
  have hselpos : 0 < sel.length := by
    rw [hsel_def, selectSearchResultsForPath_length]
    omega
  have houtpos : 0 < out.length := by
    rw [hout_def, buildStoriesFromSearchResults_length]
    omega
  have houtne : out ≠ [] := List.length_pos.mp houtpos
  have hcond1 : (strFalsy geminiKey || strFalsy webSearchKey) = false := by
    rw [hg, hw]
    rfl
  have hlf : ¬(lightFilter webResults).length = 0 := by
    intro h0
    apply hrel
    have hnil : lightFilter webResults = [] := List.eq_nil_of_length_eq_zero h0
    rw [hrel_def, hnil]
    rfl
  have hrell : ¬rel.length = 0 := by omega
  have houtl : ¬out.length = 0 := by omega
  refine ⟨?_, houtne⟩
  simp only [generateForProfile, ← hrel_def, ← hsel_def, ← hout_def]
  simp [hcond1, hlf, hrell, hg, hw, houtl]

/-- C1 witness: a concrete single relevant result flows through the filters,
the empty AI response triggers the fallback, and the returned list is the
builder's non-empty output. -/
theorem c1_witness :
    generateForProfile (some "gk") (some "wk") (some sampleProfile)
        [careerResult] [] none =
      .ok (buildStoriesFromSearchResults sampleProfile
        (selectSearchResultsForPath
          (filterSearchResultsForRelevance (lightFilter [careerResult])
            sampleProfile) 4 (some 1)) 4 (some 1)) ∧
    buildStoriesFromSearchResults sampleProfile
        (selectSearchResultsForPath
          (filterSearchResultsForRelevance (lightFilter [careerResult])
            sampleProfile) 4 (some 1)) 4 (some 1) ≠ [] :=
  c1_fallback_same_selection (some "gk") (some "wk") sampleProfile
    [careerResult] none (by decide) (by decide) (by decide)
